import Mathlib

/-!
Verification development for the ACT per-component embodied-carbon models
(`act/core/*_model.py`).  The nine component models are embedded shallowly:

* `Quantity` embeds a pint quantity as a rational magnitude (in SI base
  units) together with a dimension vector; `Quantity.check` embeds pint's
  dimensionality check, `Quantity.mul` unit-propagating multiplication.
* Python dicts are embedded as insertion-ordered association lists
  (`dictInsert` overwrites in place, appends otherwise; `dictGet?` looks up).
* Constructors (`ofData`) take the already-parsed YAML document as a list of
  key/value pairs (the YAML loader and the `units` string parser are external
  collaborators of the core).  A constructor containing an `exit(-1)` path is
  embedded as `Except PyErr _`; constructors with no failing path are total.
* `get_carbon` returns `Except PyErr Carbon`; `PyErr` distinguishes a failed
  `assert` (precondition abort), `exit(-1)` (fatal termination), and the
  Python `KeyError` / `IndexError` exceptions a dict/list access can raise.
-/

/-- Dimension vector of a pint quantity: exponents of mass, length, time. -/
structure Dim where
  mass : Int
  length : Int
  time : Int
deriving DecidableEq

/-- Dimensionless (e.g. kg CO2e per kg emission factors). -/
def dimNone : Dim := ⟨0, 0, 0⟩

/-- Mass dimension (`kg` in `units.py`). -/
def kgDim : Dim := ⟨1, 0, 0⟩

/-- Area dimension (`mm2` in `units.py`). -/
def mm2Dim : Dim := ⟨0, 2, 0⟩

/-- Length dimension (used only to exhibit wrongly-dimensioned inputs). -/
def lenDim : Dim := ⟨0, 1, 0⟩

/-- A pint quantity: magnitude in SI base units plus a dimension vector. -/
structure Quantity where
  val : Rat
  dim : Dim
deriving DecidableEq

/-- pint multiplication: magnitudes multiply, dimension exponents add. -/
def Quantity.mul (a b : Quantity) : Quantity :=
  ⟨a.val * b.val,
   ⟨a.dim.mass + b.dim.mass, a.dim.length + b.dim.length, a.dim.time + b.dim.time⟩⟩

/-- pint quantity times a Python `int` quantity count (a `Nat` here). -/
def Quantity.smulNat (a : Quantity) (n : Nat) : Quantity :=
  ⟨a.val * n, a.dim⟩

/-- pint quantity times a Python `int` that may be negative (PCB layers). -/
def Quantity.smulInt (a : Quantity) (z : Int) : Quantity :=
  ⟨a.val * z, a.dim⟩

/-- pint `q.check(d)`: dimensionality compatibility with `d`. -/
def Quantity.check (a : Quantity) (d : Dim) : Bool :=
  decide (a.dim = d)

/-- pint addition: defined only between quantities of equal dimension. -/
def qadd (a b : Quantity) : Option Quantity :=
  if a.dim = b.dim then some ⟨a.val + b.val, a.dim⟩ else none

/-- Sum of a non-empty list of quantities under dimension-checked addition. -/
def sumQ : List Quantity → Option Quantity
  | [] => none
  | h :: t => t.foldlM qadd h

/-- Outcomes other than a normal return that a model call or constructor can
have in the Python source. -/
inductive PyErr
  | assertionError
  | exitFatal
  | keyError
  | indexError
deriving DecidableEq

/-- Source-category tag of a carbon result (the `SourceType` enumeration of the external `carbon.py`). -/
inductive SourceType
  | fabrication
  | active
  | passives
  | connector
  | inductor
  | switch
  | other
deriving DecidableEq

/-- A carbon result: a dimensioned quantity plus its source-category tag. -/
structure Carbon where
  q : Quantity
  source : SourceType
deriving DecidableEq

/-- Python dict update `d[k] = v`: overwrite in place, else append (insertion
order is preserved, as for a Python dict). -/
def dictInsert {α : Type} [DecidableEq α] :
    List (α × Quantity) → α → Quantity → List (α × Quantity)
  | [], k, v => [(k, v)]
  | (k', v') :: t, k, v =>
    if k' = k then (k', v) :: t else (k', v') :: dictInsert t k v

/-- Python dict lookup `d.get(k)`. -/
def dictGet? {α : Type} [DecidableEq α] (tbl : List (α × Quantity)) (k : α) :
    Option Quantity :=
  (tbl.find? fun p => decide (p.1 = k)).map fun p => p.2

theorem dictGet?_insert_self {α : Type} [DecidableEq α]
    (tbl : List (α × Quantity)) (k : α) (v : Quantity) :
    dictGet? (dictInsert tbl k v) k = some v := by
  induction tbl with
  | nil => simp [dictInsert, dictGet?, List.find?]
  | cons p t ih =>
    obtain ⟨k', v'⟩ := p
    by_cases h : k' = k
    · subst h
      simp [dictInsert, dictGet?, List.find?]
    · simp only [dictInsert, if_neg h]
      simpa [dictGet?, List.find?, h] using ih

theorem dictGet?_insert_ne {α : Type} [DecidableEq α]
    (tbl : List (α × Quantity)) (k k' : α) (v : Quantity) (h : k' ≠ k) :
    dictGet? (dictInsert tbl k v) k' = dictGet? tbl k' := by
  have h' : k ≠ k' := fun hh => h hh.symm
  induction tbl with
  | nil => simp [dictInsert, dictGet?, List.find?, h']
  | cons p t ih =>
    obtain ⟨k₀, v₀⟩ := p
    by_cases h₀ : k₀ = k
    · subst h₀
      simp [dictInsert, dictGet?, List.find?, h']
    · simp only [dictInsert, if_neg h₀]
      by_cases h₁ : k₀ = k'
      · subst h₁
        simp [dictGet?, List.find?]
      · simpa [dictGet?, List.find?, h₁] using ih

theorem Quantity.mul_comm (a b : Quantity) : a.mul b = b.mul a := by
  simp [Quantity.mul]
  refine ⟨by ring, by omega, by omega, by omega⟩

/-! ## Active model (`active_model.py`) -/

/-- The `ActiveType` enumeration. -/
inductive ActiveType
  | transistorBJT
  | transistorMOSFET
  | activeGeneric
  | generic
deriving DecidableEq

/-- The `ActiveType(key)` enum coercion: `some` on a raw value, `none` raises. -/
def ActiveType.ofString : String → Option ActiveType
  | "transistor_bjt" => some .transistorBJT
  | "transistor_mosfet" => some .transistorMOSFET
  | "active_generic" => some .activeGeneric
  | "generic" => some .generic
  | _ => none

/-- State of a constructed `ActiveModel`. -/
structure ActiveModel where
  emission_factors : List (ActiveType × Quantity)
deriving DecidableEq

/-- The factor-loading loop of `ActiveModel.__init__`: coerce each key,
skip unknown keys with a warning. -/
def activeFactorsOf (model_data : List (String × Quantity)) :
    List (ActiveType × Quantity) :=
  model_data.foldl
    (fun acc kv =>
      match ActiveType.ofString kv.1 with
      | some t => dictInsert acc t kv.2
      | none => acc)
    []

/-- The `ActiveModel.__init__`: load factors, then ensure a `GENERIC` entry,
falling back to `ACTIVE_GENERIC`, else `exit(-1)`. -/
def ActiveModel.ofData (model_data : List (String × Quantity)) :
    Except PyErr ActiveModel :=
  let factors := activeFactorsOf model_data
  if (dictGet? factors ActiveType.generic).isSome then .ok ⟨factors⟩
  else
    match dictGet? factors ActiveType.activeGeneric with
    | some f => .ok ⟨dictInsert factors ActiveType.generic f⟩
    | none => .error .exitFatal

/-- Factor resolution inside `ActiveModel.get_carbon`: the explicit entry if
present, else the `GENERIC` entry. -/
def ActiveModel.resolve (m : ActiveModel) (t : ActiveType) : Option Quantity :=
  match dictGet? m.emission_factors t with
  | some f => some f
  | none => dictGet? m.emission_factors ActiveType.generic

/-- The `ActiveModel.get_carbon`. -/
def ActiveModel.get_carbon (m : ActiveModel) (weight : Quantity)
    (active_type : ActiveType) (n_components : Nat) : Except PyErr Carbon :=
  if ¬ (weight.check kgDim) then .error .assertionError
  else
    match m.resolve active_type with
    | none => .error .keyError
    | some ef => .ok ⟨(weight.mul ef).smulNat n_components, SourceType.active⟩

theorem activeOfData_generic {d : List (String × Quantity)} {m : ActiveModel}
    (h : ActiveModel.ofData d = .ok m) :
    (dictGet? m.emission_factors ActiveType.generic).isSome := by
  unfold ActiveModel.ofData at h
  set factors := activeFactorsOf d with hf
  by_cases hg : (dictGet? factors ActiveType.generic).isSome
  · simp only [hg, if_true] at h
    cases h
    simpa using hg
  · simp only [hg, if_false, Bool.false_eq_true] at h
    cases hag : dictGet? factors ActiveType.activeGeneric with
    | none => simp [hag] at h
    | some f =>
      simp only [hag] at h
      cases h
      simp [dictGet?_insert_self]

/-! ## Connector model (`connector_model.py`) -/

/-- The `ConnectorType` enumeration. -/
inductive ConnectorType
  | pci
  | peripheral
deriving DecidableEq

/-- The `ConnectorType(key)` enum coercion. -/
def ConnectorType.ofString : String → Option ConnectorType
  | "pci" => some .pci
  | "peripheral" => some .peripheral
  | _ => none

/-- State of a constructed `ConnectorModel`. -/
structure ConnectorModel where
  emission_factors : List (ConnectorType × Quantity)
deriving DecidableEq

/-- The factor-loading loop of `ConnectorModel.__init__`. -/
def connectorFactorsOf (model_data : List (String × Quantity)) :
    List (ConnectorType × Quantity) :=
  model_data.foldl
    (fun acc kv =>
      match ConnectorType.ofString kv.1 with
      | some t => dictInsert acc t kv.2
      | none => acc)
    []

/-- The `ConnectorModel.__init__`: both `PERIPHERAL` and `PCI` factors are
required; a missing one is `exit(-1)`. -/
def ConnectorModel.ofData (model_data : List (String × Quantity)) :
    Except PyErr ConnectorModel :=
  let factors := connectorFactorsOf model_data
  if (dictGet? factors ConnectorType.peripheral).isSome = false then
    .error .exitFatal
  else if (dictGet? factors ConnectorType.pci).isSome = false then
    .error .exitFatal
  else .ok ⟨factors⟩

/-- Factor resolution inside `ConnectorModel.get_carbon`: the explicit entry
if present, else the `PERIPHERAL` entry. -/
def ConnectorModel.resolve (m : ConnectorModel) (t : ConnectorType) :
    Option Quantity :=
  match dictGet? m.emission_factors t with
  | some f => some f
  | none => dictGet? m.emission_factors ConnectorType.peripheral

/-- The `ConnectorModel.get_carbon`. -/
def ConnectorModel.get_carbon (m : ConnectorModel) (weight : Quantity)
    (connector_type : ConnectorType) (n_connectors : Nat) :
    Except PyErr Carbon :=
  if ¬ (weight.check kgDim) then .error .assertionError
  else
    match m.resolve connector_type with
    | none => .error .keyError
    | some ef => .ok ⟨(weight.mul ef).smulNat n_connectors, SourceType.connector⟩

theorem connectorOfData_peripheral {d : List (String × Quantity)}
    {m : ConnectorModel} (h : ConnectorModel.ofData d = .ok m) :
    (dictGet? m.emission_factors ConnectorType.peripheral).isSome := by
  unfold ConnectorModel.ofData at h
  set factors := connectorFactorsOf d with hf
  by_cases hp : (dictGet? factors ConnectorType.peripheral).isSome
  · by_cases hc : (dictGet? factors ConnectorType.pci).isSome
    · simp only [hp, hc] at h
      cases h
      simpa using hp
    · simp only [hp, hc] at h
      simp at h
  · simp only [hp] at h
    simp at h

/-! ## Diode model (`diode_model.py`) -/

/-- The `DiodeType` enumeration. -/
inductive DiodeType
  | glassSMD
  | led
  | transistor
  | generic
deriving DecidableEq

/-- The `DiodeType(key)` enum coercion. -/
def DiodeType.ofString : String → Option DiodeType
  | "glass_smd" => some .glassSMD
  | "led" => some .led
  | "transistor" => some .transistor
  | "generic" => some .generic
  | _ => none

/-- State of a constructed `DiodeModel`. -/
structure DiodeModel where
  emission_factors : List (DiodeType × Quantity)
deriving DecidableEq

/-- The factor-loading loop of `DiodeModel.__init__`. -/
def diodeFactorsOf (model_data : List (String × Quantity)) :
    List (DiodeType × Quantity) :=
  model_data.foldl
    (fun acc kv =>
      match DiodeType.ofString kv.1 with
      | some t => dictInsert acc t kv.2
      | none => acc)
    []

/-- The `DiodeModel.__init__`: ensure a `GENERIC` entry, falling back to
`GLASS_SMD`, else `exit(-1)`. -/
def DiodeModel.ofData (model_data : List (String × Quantity)) :
    Except PyErr DiodeModel :=
  let factors := diodeFactorsOf model_data
  if (dictGet? factors DiodeType.generic).isSome then .ok ⟨factors⟩
  else
    match dictGet? factors DiodeType.glassSMD with
    | some f => .ok ⟨dictInsert factors DiodeType.generic f⟩
    | none => .error .exitFatal

/-- Factor resolution inside `DiodeModel.get_carbon`. -/
def DiodeModel.resolve (m : DiodeModel) (t : DiodeType) : Option Quantity :=
  match dictGet? m.emission_factors t with
  | some f => some f
  | none => dictGet? m.emission_factors DiodeType.generic

/-- The `DiodeModel.get_carbon`; note the result is tagged `FABRICATION`. -/
def DiodeModel.get_carbon (m : DiodeModel) (weight : Quantity)
    (diode_type : DiodeType) (n_diodes : Nat) : Except PyErr Carbon :=
  if ¬ (weight.check kgDim) then .error .assertionError
  else
    match m.resolve diode_type with
    | none => .error .keyError
    | some ef => .ok ⟨(weight.mul ef).smulNat n_diodes, SourceType.fabrication⟩

theorem diodeOfData_generic {d : List (String × Quantity)} {m : DiodeModel}
    (h : DiodeModel.ofData d = .ok m) :
    (dictGet? m.emission_factors DiodeType.generic).isSome := by
  unfold DiodeModel.ofData at h
  set factors := diodeFactorsOf d with hf
  by_cases hg : (dictGet? factors DiodeType.generic).isSome
  · simp only [hg, if_true] at h
    cases h
    simpa using hg
  · simp only [hg, if_false, Bool.false_eq_true] at h
    cases hag : dictGet? factors DiodeType.glassSMD with
    | none => simp [hag] at h
    | some f =>
      simp only [hag] at h
      cases h
      simp [dictGet?_insert_self]

/-! ## Other model (`other_model.py`) -/

/-- The `OtherType` enumeration. -/
inductive OtherType
  | passiveGeneric
  | activeGeneric
  | generic
deriving DecidableEq

/-- The `OtherType(key)` enum coercion. -/
def OtherType.ofString : String → Option OtherType
  | "passive_generic" => some .passiveGeneric
  | "active_generic" => some .activeGeneric
  | "generic" => some .generic
  | _ => none

/-- State of a constructed `OtherModel`. -/
structure OtherModel where
  emission_factors : List (OtherType × Quantity)
deriving DecidableEq

/-- The factor-loading loop of `OtherModel.__init__`. -/
def otherFactorsOf (model_data : List (String × Quantity)) :
    List (OtherType × Quantity) :=
  model_data.foldl
    (fun acc kv =>
      match OtherType.ofString kv.1 with
      | some t => dictInsert acc t kv.2
      | none => acc)
    []

/-- The `OtherModel.__init__`: a `GENERIC` entry is required, else `exit(-1)`
(no synonym fallback in this model). -/
def OtherModel.ofData (model_data : List (String × Quantity)) :
    Except PyErr OtherModel :=
  let factors := otherFactorsOf model_data
  if (dictGet? factors OtherType.generic).isSome then .ok ⟨factors⟩
  else .error .exitFatal

/-- Factor resolution inside `OtherModel.get_carbon`. -/
def OtherModel.resolve (m : OtherModel) (t : OtherType) : Option Quantity :=
  match dictGet? m.emission_factors t with
  | some f => some f
  | none => dictGet? m.emission_factors OtherType.generic

/-- The `OtherModel.get_carbon`. -/
def OtherModel.get_carbon (m : OtherModel) (weight : Quantity)
    (component_type : OtherType) (n_components : Nat) : Except PyErr Carbon :=
  if ¬ (weight.check kgDim) then .error .assertionError
  else
    match m.resolve component_type with
    | none => .error .keyError
    | some ef => .ok ⟨(weight.mul ef).smulNat n_components, SourceType.other⟩

theorem otherOfData_generic {d : List (String × Quantity)} {m : OtherModel}
    (h : OtherModel.ofData d = .ok m) :
    (dictGet? m.emission_factors OtherType.generic).isSome := by
  unfold OtherModel.ofData at h
  by_cases hg : (dictGet? (otherFactorsOf d) OtherType.generic).isSome
  · simp only [hg, if_true] at h
    cases h
    simpa using hg
  · simp [hg] at h

/-! ## Switch model (`switch_model.py`) -/

/-- The `SwitchType` enumeration (only `GENERIC` exists in the source). -/
inductive SwitchType
  | generic
deriving DecidableEq

/-- The `SwitchType(key)` enum coercion. -/
def SwitchType.ofString : String → Option SwitchType
  | "generic" => some .generic
  | _ => none

/-- State of a constructed `SwitchModel`. -/
structure SwitchModel where
  emission_factors : List (SwitchType × Quantity)
deriving DecidableEq

/-- The factor-loading loop of `SwitchModel.__init__`. -/
def switchFactorsOf (model_data : List (String × Quantity)) :
    List (SwitchType × Quantity) :=
  model_data.foldl
    (fun acc kv =>
      match SwitchType.ofString kv.1 with
      | some t => dictInsert acc t kv.2
      | none => acc)
    []

/-- The `SwitchModel.__init__`: a `GENERIC` entry is required, else `exit(-1)`. -/
def SwitchModel.ofData (model_data : List (String × Quantity)) :
    Except PyErr SwitchModel :=
  let factors := switchFactorsOf model_data
  if (dictGet? factors SwitchType.generic).isSome then .ok ⟨factors⟩
  else .error .exitFatal

/-- Factor resolution inside `SwitchModel.get_carbon`. -/
def SwitchModel.resolve (m : SwitchModel) (t : SwitchType) : Option Quantity :=
  match dictGet? m.emission_factors t with
  | some f => some f
  | none => dictGet? m.emission_factors SwitchType.generic

/-- The `SwitchModel.get_carbon`. -/
def SwitchModel.get_carbon (m : SwitchModel) (weight : Quantity)
    (switch_type : SwitchType) (n_switches : Nat) : Except PyErr Carbon :=
  if ¬ (weight.check kgDim) then .error .assertionError
  else
    match m.resolve switch_type with
    | none => .error .keyError
    | some ef => .ok ⟨(weight.mul ef).smulNat n_switches, SourceType.switch⟩

theorem switchOfData_generic {d : List (String × Quantity)} {m : SwitchModel}
    (h : SwitchModel.ofData d = .ok m) :
    (dictGet? m.emission_factors SwitchType.generic).isSome := by
  unfold SwitchModel.ofData at h
  by_cases hg : (dictGet? (switchFactorsOf d) SwitchType.generic).isSome
  · simp only [hg, if_true] at h
    cases h
    simpa using hg
  · simp [hg] at h

/-! ## Resistor model (`resistor_model.py`) -/

/-- The `ResistorType` enumeration. -/
inductive ResistorType
  | pkg0201
  | pkg0402
  | pkg0603
  | pkg0805
  | generic
deriving DecidableEq

/-- The `ResistorType(key)` enum coercion. -/
def ResistorType.ofString : String → Option ResistorType
  | "0201" => some .pkg0201
  | "0402" => some .pkg0402
  | "0603" => some .pkg0603
  | "0805" => some .pkg0805
  | "generic" => some .generic
  | _ => none

/-- State of a constructed `ResistorModel`. -/
structure ResistorModel where
  emission_factors : List (ResistorType × Quantity)
deriving DecidableEq

/-- The factor-loading loop of `ResistorModel.__init__`. -/
def resistorFactorsOf (model_data : List (String × Quantity)) :
    List (ResistorType × Quantity) :=
  model_data.foldl
    (fun acc kv =>
      match ResistorType.ofString kv.1 with
      | some t => dictInsert acc t kv.2
      | none => acc)
    []

/-- The `ResistorModel.__init__`: an empty factor table is `exit(-1)`; then
`GENERIC` is aliased to `PKG_0805` when present and `GENERIC` is absent. -/
def ResistorModel.ofData (model_data : List (String × Quantity)) :
    Except PyErr ResistorModel :=
  let factors := resistorFactorsOf model_data
  if factors.isEmpty then .error .exitFatal
  else
    match dictGet? factors ResistorType.pkg0805,
          dictGet? factors ResistorType.generic with
    | some f, none => .ok ⟨dictInsert factors ResistorType.generic f⟩
    | _, _ => .ok ⟨factors⟩

/-- Factor resolution inside `ResistorModel.get_carbon`: the explicit entry
if present, else `dict.get(PKG_0805, list(values)[0])` — the `PKG_0805`
entry when present, else the first value in insertion order, else the
eagerly evaluated `list(values)[0]` raises `IndexError`. -/
def ResistorModel.resolveCall (m : ResistorModel) (t : ResistorType) :
    Except PyErr Quantity :=
  match dictGet? m.emission_factors t with
  | some f => .ok f
  | none =>
    match m.emission_factors.head? with
    | none => .error .indexError
    | some first =>
      match dictGet? m.emission_factors ResistorType.pkg0805 with
      | some f => .ok f
      | none => .ok first.2

/-- The `ResistorModel.get_carbon`; note the result is tagged `FABRICATION` and
the Python default for `resistor_type` is `PKG_0805`. -/
def ResistorModel.get_carbon (m : ResistorModel) (n_resistors : Nat)
    (resistor_type : ResistorType) : Except PyErr Carbon :=
  match m.resolveCall resistor_type with
  | .error e => .error e
  | .ok ef => .ok ⟨ef.smulNat n_resistors, SourceType.fabrication⟩

/-- The `ResistorModel.get_carbon` with `resistor_type` left at its Python
default value `ResistorType.PKG_0805`. -/
def ResistorModel.get_carbonDefault (m : ResistorModel) (n_resistors : Nat) :
    Except PyErr Carbon :=
  m.get_carbon n_resistors ResistorType.pkg0805

/-! ## Inductor model (`inductor_model.py`) -/

/-- The `InductorType` enumeration. -/
inductive InductorType
  | weightBased
  | pkg0201
  | pkg0402
  | pkg0603
  | pkg0805
  | generic
deriving DecidableEq

/-- The `InductorType(key)` enum coercion. -/
def InductorType.ofString : String → Option InductorType
  | "weight_based" => some .weightBased
  | "0201" => some .pkg0201
  | "0402" => some .pkg0402
  | "0603" => some .pkg0603
  | "0805" => some .pkg0805
  | "generic" => some .generic
  | _ => none

/-- State of a constructed `InductorModel`. -/
structure InductorModel where
  weight_based_factor : Option Quantity
  package_emission_factors : List (InductorType × Quantity)
deriving DecidableEq

/-- The loading loop of `InductorModel.__init__`: the `"weight_based"` key
feeds `weight_based_factor`; every other known key feeds the package table. -/
def inductorLoopOf (model_data : List (String × Quantity)) : InductorModel :=
  model_data.foldl
    (fun m kv =>
      if kv.1 = "weight_based" then ⟨some kv.2, m.package_emission_factors⟩
      else
        match InductorType.ofString kv.1 with
        | some t =>
          ⟨m.weight_based_factor, dictInsert m.package_emission_factors t kv.2⟩
        | none => m)
    ⟨none, []⟩

/-- The `InductorModel.__init__`: after the loop, `GENERIC` is aliased to
`PKG_0805` when `PKG_0805` is present.  No path of this constructor is
fatal. -/
def InductorModel.ofData (model_data : List (String × Quantity)) :
    InductorModel :=
  let m := inductorLoopOf model_data
  match dictGet? m.package_emission_factors InductorType.pkg0805 with
  | some f =>
    ⟨m.weight_based_factor,
     dictInsert m.package_emission_factors InductorType.generic f⟩
  | none => m

/-- The `is_package_type` list in `InductorModel.get_carbon`. -/
def inductorPackageTypes : List InductorType :=
  [.pkg0201, .pkg0402, .pkg0603, .pkg0805, .generic]

/-- Package-branch factor resolution in `InductorModel.get_carbon`: explicit
entry, else `dict.get(PKG_0805, list(values)[0])` whose eagerly evaluated
default raises `IndexError` on an empty package table. -/
def InductorModel.resolvePackage (m : InductorModel) (t : InductorType) :
    Except PyErr Quantity :=
  match dictGet? m.package_emission_factors t with
  | some f => .ok f
  | none =>
    match m.package_emission_factors.head? with
    | none => .error .indexError
    | some first =>
      match dictGet? m.package_emission_factors InductorType.pkg0805 with
      | some f => .ok f
      | none => .ok first.2

/-- The `InductorModel.get_carbon`: package-based when the type is a package
type and no weight is supplied, otherwise weight-based (zero-carbon result
when the weight or the weight-based factor is missing). -/
def InductorModel.get_carbon (m : InductorModel) (n_inductors : Nat)
    (inductor_type : InductorType) (weight : Option Quantity) :
    Except PyErr Carbon :=
  if inductor_type ∈ inductorPackageTypes ∧ weight = none then
    match m.resolvePackage inductor_type with
    | .error e => .error e
    | .ok ef => .ok ⟨ef.smulNat n_inductors, SourceType.inductor⟩
  else
    match weight with
    | none => .ok ⟨⟨0, kgDim⟩, SourceType.inductor⟩
    | some w =>
      if ¬ (w.check kgDim) then .error .assertionError
      else
        match m.weight_based_factor with
        | none => .ok ⟨⟨0, kgDim⟩, SourceType.inductor⟩
        | some wbf =>
          .ok ⟨(w.mul wbf).smulNat n_inductors, SourceType.inductor⟩

/-! ## Capacitor model (`capacitor_model.py`) -/

/-- The `CapacitorType` enumeration. -/
inductive CapacitorType
  | mlcc
  | tec
  | generic
  | pkg0201
  | pkg0402
  | pkg0603
  | pkg0805
deriving DecidableEq

/-- The `CapacitorType(key)` enum coercion. -/
def CapacitorType.ofString : String → Option CapacitorType
  | "mlcc" => some .mlcc
  | "tec" => some .tec
  | "generic" => some .generic
  | "0201" => some .pkg0201
  | "0402" => some .pkg0402
  | "0603" => some .pkg0603
  | "0805" => some .pkg0805
  | _ => none

/-- Manufacturing-location enumeration keying the carbon-intensity table.
Modelled from the spec: `EnergyLocation` lives in `common.py`, which is not
part of the core sources; the spec only requires it to be an enumeration of
manufacturing locations with a specific named default (`JAPAN`). -/
inductive EnergyLocation
  | japan
  | world
deriving DecidableEq

/-- The `DEFAULT_CAPACITOR_WEIGHT = 0.03 * g` (in SI base units: kg). -/
def DEFAULT_CAPACITOR_WEIGHT : Quantity := ⟨3 / 100000, kgDim⟩

/-- The `DEFAULT_CARBON_PER_CAPACITOR = 300 * g` (in SI base units: kg). -/
def DEFAULT_CARBON_PER_CAPACITOR : Quantity := ⟨3 / 10, kgDim⟩

/-- State of a constructed `CapacitorModel`; `ci_model` is the injected
carbon-intensity table loaded by the external `load_ci_model()`. -/
structure CapacitorModel where
  capacitor_model : List (CapacitorType × Quantity)
  package_model : List (CapacitorType × Quantity)
  ci_model : EnergyLocation → Quantity

/-- The energy-based type list in `CapacitorModel.__init__`. -/
def capacitorEnergyTypes : List CapacitorType := [.mlcc, .tec, .generic]

/-- The `CapacitorModel.__init__`: split known keys between the energy-based
table and the package-based table, skip unknown keys.  No path of this
constructor is fatal. -/
def CapacitorModel.ofData (model_data : List (String × Quantity))
    (ci : EnergyLocation → Quantity) : CapacitorModel :=
  let p :=
    model_data.foldl
      (fun acc kv =>
        match CapacitorType.ofString kv.1 with
        | some t =>
          if t ∈ capacitorEnergyTypes then (dictInsert acc.1 t kv.2, acc.2)
          else (acc.1, dictInsert acc.2 t kv.2)
        | none => acc)
      ([], [])
  ⟨p.1, p.2, ci⟩

/-- The `CapacitorModel.get_carbon`: package-based when the type is in the
package table, energy-based when it is in the energy table, else the
hardcoded default.  This method performs no dimension check and has no
failing path. -/
def CapacitorModel.get_carbon (m : CapacitorModel) (ci : EnergyLocation)
    (ctype : CapacitorType) (weight : Quantity) (n_caps : Nat) : Carbon :=
  match dictGet? m.package_model ctype with
  | some emission_per_cap =>
    ⟨emission_per_cap.smulNat n_caps, SourceType.passives⟩
  | none =>
    match dictGet? m.capacitor_model ctype with
    | some energy_per_kg =>
      ⟨((energy_per_kg.mul weight).smulNat n_caps).mul (m.ci_model ci),
       SourceType.passives⟩
    | none =>
      ⟨DEFAULT_CARBON_PER_CAPACITOR.smulNat n_caps, SourceType.passives⟩

/-! ## PCB model (`pcb_model.py`) -/

/-- One entry of the PCB YAML document: integer keys are per-layer-count
area coefficients; `"cpla"` (the interpolated-average key), `"typical_thickness"`
and `"carbon_coefficient"` are the reserved string keys. -/
inductive PcbEntry
  | layer (n : Int) (v : Quantity)
  | cpla (v : Quantity)
  | typicalThickness (m : List (Int × Quantity))
  | carbonCoefficient (v : Quantity)

/-- State of a constructed `PCBModel`. -/
structure PCBModel where
  model : List (Int × Quantity)
  typical_thickness : List (Int × Quantity)
  carbon_coefficient : Option Quantity
  interpolated_cpla : Option Quantity

/-- The `PCBModel.__init__`: route each document entry to its table; when no
`"cpla"` entry exists `interpolated_cpla` stays `None` (with a warning).
No path of this constructor is fatal. -/
def PCBModel.ofData (model_data : List PcbEntry) : PCBModel :=
  model_data.foldl
    (fun m e =>
      match e with
      | .layer n v => ⟨dictInsert m.model n v, m.typical_thickness,
                       m.carbon_coefficient, m.interpolated_cpla⟩
      | .cpla v => ⟨m.model, m.typical_thickness, m.carbon_coefficient, some v⟩
      | .typicalThickness tm => ⟨m.model, tm, m.carbon_coefficient,
                                 m.interpolated_cpla⟩
      | .carbonCoefficient v => ⟨m.model, m.typical_thickness, some v,
                                 m.interpolated_cpla⟩)
    ⟨[], [], none, none⟩

/-- The `PCBModel.get_carbon`: thickness path iff both a thickness argument and
a configured carbon coefficient exist; otherwise exact layer entry, else
interpolated average times layer count, else `exit(-1)`. -/
def PCBModel.get_carbon (m : PCBModel) (area : Quantity) (layers : Int)
    (thickness : Option Quantity) : Except PyErr Carbon :=
  if ¬ (area.check mm2Dim) then .error .assertionError
  else
    match thickness, m.carbon_coefficient with
    | some th, some cc =>
      .ok ⟨((area.smulInt layers).mul th).mul cc, SourceType.fabrication⟩
    | _, _ =>
      match dictGet? m.model layers with
      | some cpa => .ok ⟨cpa.mul area, SourceType.fabrication⟩
      | none =>
        match m.interpolated_cpla with
        | some i => .ok ⟨(i.smulInt layers).mul area, SourceType.fabrication⟩
        | none => .error .exitFatal

/-! ## Helper lemmas -/

theorem dictInsert_ne_nil {α : Type} [DecidableEq α]
    (tbl : List (α × Quantity)) (k : α) (v : Quantity) :
    dictInsert tbl k v ≠ [] := by
  cases tbl with
  | nil => simp [dictInsert]
  | cons p t =>
    obtain ⟨k', v'⟩ := p
    by_cases h : k' = k <;> simp [dictInsert, h]

theorem dictGet?_ne_nil {α : Type} [DecidableEq α]
    {tbl : List (α × Quantity)} {k : α} {v : Quantity}
    (h : dictGet? tbl k = some v) : tbl ≠ [] := by
  intro hnil
  subst hnil
  simp [dictGet?, List.find?] at h

theorem foldlM_qadd_replicate (n : Nat) (q : Quantity) :
    ∀ acc : Quantity, acc.dim = q.dim →
      (List.replicate n q).foldlM qadd acc =
        some ⟨acc.val + n * q.val, acc.dim⟩ := by
  induction n with
  | zero => intro acc _; simp
  | succ k ih =>
    intro acc hd
    rw [List.replicate_succ]
    simp only [List.foldlM_cons]
    have hq : qadd acc q = some ⟨acc.val + q.val, acc.dim⟩ := by
      simp [qadd, hd]
    rw [hq]
    simp only [Option.bind_eq_bind, Option.some_bind]
    rw [ih ⟨acc.val + q.val, acc.dim⟩ hd]
    have hv : acc.val + q.val + (k : Rat) * q.val
        = acc.val + ((k : Nat) + 1 : Nat) * q.val := by
      push_cast
      ring
    rw [hv]

theorem sumQ_replicate {n : Nat} (q : Quantity) (hn : 1 ≤ n) :
    sumQ (List.replicate n q) = some ⟨(n : Rat) * q.val, q.dim⟩ := by
  obtain ⟨k, rfl⟩ : ∃ k, n = k + 1 := ⟨n - 1, by omega⟩
  rw [List.replicate_succ]
  simp only [sumQ]
  rw [foldlM_qadd_replicate k q q rfl]
  have hv : q.val + (k : Rat) * q.val = ((k + 1 : Nat) : Rat) * q.val := by
    push_cast
    ring
  rw [hv]

/-! ## Claims -/

/-- C1: for every mass-based model (Active, Connector, Diode, Other,
Switch), a constructed instance, a mass-dimensioned weight `w`, any type `t`
of the model's enumeration and any quantity `n ≥ 0`, `get_carbon` succeeds
and returns a carbon quantity equal to `resolve(t) * w * n`; in particular
`n = 0` yields a zero-valued result (of the dimension of `resolve(t) * w`),
never an error. -/
theorem c1_mass_models_get_carbon :
    (∀ (d : List (String × Quantity)) (m : ActiveModel) (w : Quantity)
        (t : ActiveType) (n : Nat),
      ActiveModel.ofData d = .ok m → w.check kgDim = true →
      ∃ f, m.resolve t = some f ∧
        m.get_carbon w t n = .ok ⟨(f.mul w).smulNat n, SourceType.active⟩ ∧
        (n = 0 → ((f.mul w).smulNat n).val = 0)) ∧
    (∀ (d : List (String × Quantity)) (m : ConnectorModel) (w : Quantity)
        (t : ConnectorType) (n : Nat),
      ConnectorModel.ofData d = .ok m → w.check kgDim = true →
      ∃ f, m.resolve t = some f ∧
        m.get_carbon w t n = .ok ⟨(f.mul w).smulNat n, SourceType.connector⟩ ∧
        (n = 0 → ((f.mul w).smulNat n).val = 0)) ∧
    (∀ (d : List (String × Quantity)) (m : DiodeModel) (w : Quantity)
        (t : DiodeType) (n : Nat),
      DiodeModel.ofData d = .ok m → w.check kgDim = true →
      ∃ f, m.resolve t = some f ∧
        m.get_carbon w t n = .ok ⟨(f.mul w).smulNat n, SourceType.fabrication⟩ ∧
        (n = 0 → ((f.mul w).smulNat n).val = 0)) ∧
    (∀ (d : List (String × Quantity)) (m : OtherModel) (w : Quantity)
        (t : OtherType) (n : Nat),
      OtherModel.ofData d = .ok m → w.check kgDim = true →
      ∃ f, m.resolve t = some f ∧
        m.get_carbon w t n = .ok ⟨(f.mul w).smulNat n, SourceType.other⟩ ∧
        (n = 0 → ((f.mul w).smulNat n).val = 0)) ∧
    (∀ (d : List (String × Quantity)) (m : SwitchModel) (w : Quantity)
        (t : SwitchType) (n : Nat),
      SwitchModel.ofData d = .ok m → w.check kgDim = true →
      ∃ f, m.resolve t = some f ∧
        m.get_carbon w t n = .ok ⟨(f.mul w).smulNat n, SourceType.switch⟩ ∧
        (n = 0 → ((f.mul w).smulNat n).val = 0)) := by
  refine ⟨?_, ?_, ?_, ?_, ?_⟩
  · intro d m w t n hok hw
    have hg := activeOfData_generic hok
    have hres : ∃ f, m.resolve t = some f := by
      cases he : dictGet? m.emission_factors t with
      | some f => exact ⟨f, by simp [ActiveModel.resolve, he]⟩
      | none =>
        obtain ⟨g, hgg⟩ := Option.isSome_iff_exists.mp hg
        exact ⟨g, by simp [ActiveModel.resolve, he, hgg]⟩
    obtain ⟨f, hf⟩ := hres
    refine ⟨f, hf, ?_, ?_⟩
    · simp [ActiveModel.get_carbon, hw, hf, Quantity.mul_comm f w]
    · intro hn
      subst hn
      simp [Quantity.smulNat]
  · intro d m w t n hok hw
    have hg := connectorOfData_peripheral hok
    have hres : ∃ f, m.resolve t = some f := by
      cases he : dictGet? m.emission_factors t with
      | some f => exact ⟨f, by simp [ConnectorModel.resolve, he]⟩
      | none =>
        obtain ⟨g, hgg⟩ := Option.isSome_iff_exists.mp hg
        exact ⟨g, by simp [ConnectorModel.resolve, he, hgg]⟩
    obtain ⟨f, hf⟩ := hres
    refine ⟨f, hf, ?_, ?_⟩
    · simp [ConnectorModel.get_carbon, hw, hf, Quantity.mul_comm f w]
    · intro hn
      subst hn
      simp [Quantity.smulNat]
  · intro d m w t n hok hw
    have hg := diodeOfData_generic hok
    have hres : ∃ f, m.resolve t = some f := by
      cases he : dictGet? m.emission_factors t with
      | some f => exact ⟨f, by simp [DiodeModel.resolve, he]⟩
      | none =>
        obtain ⟨g, hgg⟩ := Option.isSome_iff_exists.mp hg
        exact ⟨g, by simp [DiodeModel.resolve, he, hgg]⟩
    obtain ⟨f, hf⟩ := hres
    refine ⟨f, hf, ?_, ?_⟩
    · simp [DiodeModel.get_carbon, hw, hf, Quantity.mul_comm f w]
    · intro hn
      subst hn
      simp [Quantity.smulNat]
  · intro d m w t n hok hw
    have hg := otherOfData_generic hok
    have hres : ∃ f, m.resolve t = some f := by
      cases he : dictGet? m.emission_factors t with
      | some f => exact ⟨f, by simp [OtherModel.resolve, he]⟩
      | none =>
        obtain ⟨g, hgg⟩ := Option.isSome_iff_exists.mp hg
        exact ⟨g, by simp [OtherModel.resolve, he, hgg]⟩
    obtain ⟨f, hf⟩ := hres
    refine ⟨f, hf, ?_, ?_⟩
    · simp [OtherModel.get_carbon, hw, hf, Quantity.mul_comm f w]
    · intro hn
      subst hn
      simp [Quantity.smulNat]
  · intro d m w t n hok hw
    have hg := switchOfData_generic hok
    have hres : ∃ f, m.resolve t = some f := by
      cases he : dictGet? m.emission_factors t with
      | some f => exact ⟨f, by simp [SwitchModel.resolve, he]⟩
      | none =>
        obtain ⟨g, hgg⟩ := Option.isSome_iff_exists.mp hg
        cases t
        rw [he] at hgg
        exact absurd hgg (by simp)
    obtain ⟨f, hf⟩ := hres
    refine ⟨f, hf, ?_, ?_⟩
    · simp [SwitchModel.get_carbon, hw, hf, Quantity.mul_comm f w]
    · intro hn
      subst hn
      simp [Quantity.smulNat]

/-- A dimensionless factor (2 kg CO2e per kg) used by concrete witnesses. -/
def qTwo : Quantity := ⟨2, dimNone⟩

/-- One kilogram, used by concrete witnesses. -/
def oneKg : Quantity := ⟨1, kgDim⟩

/-- Witness for C1: a concrete Active model with only a generic factor,
queried at an unlisted type with quantity 0, yields a zero-valued carbon. -/
theorem c1_mass_models_get_carbon_witness :
    ∃ f,
      (ActiveModel.mk [(ActiveType.generic, qTwo)]).resolve
          ActiveType.transistorBJT = some f ∧
      (ActiveModel.mk [(ActiveType.generic, qTwo)]).get_carbon oneKg
          ActiveType.transistorBJT 0 =
        .ok ⟨(f.mul oneKg).smulNat 0, SourceType.active⟩ ∧
      (0 = 0 → ((f.mul oneKg).smulNat 0).val = 0) :=
  c1_mass_models_get_carbon.1 [("generic", qTwo)]
    ⟨[(ActiveType.generic, qTwo)]⟩ oneKg ActiveType.transistorBJT 0
    (by rfl) (by rfl)

/-- C2: Inductor mode selection is deterministic with weight precedence:
with no weight argument a package-type request is computed from the package
table as `factor * n`; with a supplied mass weight `X` (and a configured
weight-based factor) the result is `X * weight_based_factor * n` for every
requested type, ignoring the package type entirely. -/
theorem c2_inductor_mode_selection :
    (∀ (m : InductorModel) (n : Nat) (t : InductorType) (f : Quantity),
      t ∈ inductorPackageTypes →
      dictGet? m.package_emission_factors t = some f →
      m.get_carbon n t none = .ok ⟨f.smulNat n, SourceType.inductor⟩) ∧
    (∀ (m : InductorModel) (n : Nat) (t : InductorType) (X wbf : Quantity),
      X.check kgDim = true →
      m.weight_based_factor = some wbf →
      m.get_carbon n t (some X) =
        .ok ⟨(X.mul wbf).smulNat n, SourceType.inductor⟩) := by
  constructor
  · intro m n t f ht hf
    simp [InductorModel.get_carbon, ht, InductorModel.resolvePackage, hf]
  · intro m n t X wbf hX hwbf
    simp [InductorModel.get_carbon, hX, hwbf]

/-- Witness for C2: a concrete Inductor model with an 0402 package entry and
a weight-based factor; the weightless call reads the package table, the
weighted call (same requested type) switches to the weight-based formula. -/
theorem c2_inductor_mode_selection_witness :
    (InductorModel.mk (some qTwo) [(InductorType.pkg0402, ⟨7, kgDim⟩)]).get_carbon
        5 InductorType.pkg0402 none =
      .ok ⟨Quantity.smulNat ⟨7, kgDim⟩ 5, SourceType.inductor⟩ ∧
    (InductorModel.mk (some qTwo) [(InductorType.pkg0402, ⟨7, kgDim⟩)]).get_carbon
        5 InductorType.pkg0402 (some oneKg) =
      .ok ⟨(oneKg.mul qTwo).smulNat 5, SourceType.inductor⟩ :=
  ⟨c2_inductor_mode_selection.1 ⟨some qTwo, [(InductorType.pkg0402, ⟨7, kgDim⟩)]⟩
      5 InductorType.pkg0402 ⟨7, kgDim⟩ (by decide) (by rfl),
   c2_inductor_mode_selection.2 ⟨some qTwo, [(InductorType.pkg0402, ⟨7, kgDim⟩)]⟩
      5 InductorType.pkg0402 oneKg qTwo (by rfl) (by rfl)⟩

/-- C3: for PCB with no thickness argument and an area-dimensioned input,
an exact layer-table entry gives `table[L] * A`; an absent entry with a
configured interpolated average `I` gives `(I * L) * A`; with neither the
call terminates fatally (`exit(-1)`). -/
theorem c3_pcb_layer_paths :
    ∀ (m : PCBModel) (A : Quantity) (L : Int),
      A.check mm2Dim = true →
      ((∀ cpa, dictGet? m.model L = some cpa →
          m.get_carbon A L none = .ok ⟨cpa.mul A, SourceType.fabrication⟩) ∧
       (∀ i, dictGet? m.model L = none → m.interpolated_cpla = some i →
          m.get_carbon A L none =
            .ok ⟨(i.smulInt L).mul A, SourceType.fabrication⟩) ∧
       (dictGet? m.model L = none → m.interpolated_cpla = none →
          m.get_carbon A L none = .error .exitFatal)) := by
  intro m A L hA
  refine ⟨?_, ?_, ?_⟩
  · intro cpa hcpa
    simp [PCBModel.get_carbon, hA, hcpa]
  · intro i hnone hi
    simp [PCBModel.get_carbon, hA, hnone, hi]
  · intro hnone hcpla
    simp [PCBModel.get_carbon, hA, hnone, hcpla]

/-- One square millimetre of PCB area, used by concrete witnesses. -/
def oneMM2 : Quantity := ⟨1, mm2Dim⟩

/-- A four-layer PCB model with an interpolated average, used by witnesses:
layer count 4 is tabulated, 7 and 99 are not. -/
def pcbTest : PCBModel :=
  PCBModel.ofData [.layer 4 qTwo, .cpla ⟨3, dimNone⟩]

/-- A PCB model with a layer table but no interpolated average. -/
def pcbTestNoCpla : PCBModel := PCBModel.ofData [.layer 4 qTwo]

/-- Witness for C3, covering the spec's three literal scenarios: layer count
4 is tabulated; 7 is untabulated but interpolated; 99 with no interpolated
average is fatal. -/
theorem c3_pcb_layer_paths_witness :
    pcbTest.get_carbon oneMM2 4 none =
      .ok ⟨qTwo.mul oneMM2, SourceType.fabrication⟩ ∧
    pcbTest.get_carbon oneMM2 7 none =
      .ok ⟨(Quantity.smulInt ⟨3, dimNone⟩ 7).mul oneMM2, SourceType.fabrication⟩ ∧
    pcbTestNoCpla.get_carbon oneMM2 99 none = .error .exitFatal :=
  ⟨(c3_pcb_layer_paths pcbTest oneMM2 4 (by rfl)).1 qTwo (by rfl),
   (c3_pcb_layer_paths pcbTest oneMM2 7 (by rfl)).2.1 ⟨3, dimNone⟩ (by rfl) (by rfl),
   (c3_pcb_layer_paths pcbTestNoCpla oneMM2 99 (by rfl)).2.2 (by rfl) (by rfl)⟩

/-- C4: for Capacitor, a requested type present in neither the package table
nor the energy table returns the hardcoded default
`DEFAULT_CARBON_PER_CAPACITOR * n` tagged `PASSIVES`, never an error, and
the value is non-zero for every positive quantity. -/
theorem c4_capacitor_rescue_fallback :
    ∀ (m : CapacitorModel) (t : CapacitorType) (ci : EnergyLocation)
      (w : Quantity) (n : Nat),
      dictGet? m.package_model t = none →
      dictGet? m.capacitor_model t = none →
      m.get_carbon ci t w n =
        ⟨DEFAULT_CARBON_PER_CAPACITOR.smulNat n, SourceType.passives⟩ ∧
      (1 ≤ n → (DEFAULT_CARBON_PER_CAPACITOR.smulNat n).val ≠ 0) := by
  intro m t ci w n hp he
  constructor
  · simp [CapacitorModel.get_carbon, hp, he]
  · intro hn
    simp only [DEFAULT_CARBON_PER_CAPACITOR, Quantity.smulNat]
    have hn' : (n : Rat) ≠ 0 := Nat.cast_ne_zero.mpr (by omega)
    exact mul_ne_zero (by norm_num) hn'

/-- A constant carbon-intensity table used by concrete witnesses. -/
def ciConst : EnergyLocation → Quantity := fun _ => ⟨1, dimNone⟩

/-- A capacitor model whose document holds only an energy-based MLCC entry,
used by concrete witnesses. -/
def capTestMlccOnly : CapacitorModel :=
  CapacitorModel.ofData [("mlcc", qTwo)] ciConst

/-- Witness for C4: a concrete capacitor model with only an MLCC entry,
queried at the package type 0603 (absent from both tables) with quantity 2,
returns the hardcoded default times 2, a non-zero value. -/
theorem c4_capacitor_rescue_fallback_witness :
    capTestMlccOnly.get_carbon EnergyLocation.japan CapacitorType.pkg0603
        oneKg 2 =
      ⟨DEFAULT_CARBON_PER_CAPACITOR.smulNat 2, SourceType.passives⟩ ∧
    (1 ≤ 2 → (DEFAULT_CARBON_PER_CAPACITOR.smulNat 2).val ≠ 0) :=
  c4_capacitor_rescue_fallback capTestMlccOnly CapacitorType.pkg0603
    EnergyLocation.japan oneKg 2 (by rfl) (by rfl)

/-- C5 counterexample: the claim says construction from a document with no
derivable `GENERIC` default is fatal for every one of the nine models; but
`InductorModel.__init__` and `CapacitorModel.__init__` have no fatal path at
all, and both construct usable instances from an empty document. -/
theorem c5_counterexample :
    InductorModel.ofData [] = ⟨none, []⟩ ∧
    CapacitorModel.ofData [] ciConst = ⟨[], [], ciConst⟩ := by
  constructor <;> rfl

/-- C5 amended: construction with no derivable default factor is fatal for
Active, Connector, Diode, Other, Switch and Resistor (the six constructors
containing `exit(-1)`); Inductor, Capacitor and PCB construct without error
even when no default can be established. -/
theorem c5_amended_construction_fatal :
    (∀ d : List (String × Quantity),
      dictGet? (activeFactorsOf d) ActiveType.generic = none →
      dictGet? (activeFactorsOf d) ActiveType.activeGeneric = none →
      ActiveModel.ofData d = .error .exitFatal) ∧
    (∀ d : List (String × Quantity),
      dictGet? (connectorFactorsOf d) ConnectorType.peripheral = none ∨
      dictGet? (connectorFactorsOf d) ConnectorType.pci = none →
      ConnectorModel.ofData d = .error .exitFatal) ∧
    (∀ d : List (String × Quantity),
      dictGet? (diodeFactorsOf d) DiodeType.generic = none →
      dictGet? (diodeFactorsOf d) DiodeType.glassSMD = none →
      DiodeModel.ofData d = .error .exitFatal) ∧
    (∀ d : List (String × Quantity),
      dictGet? (otherFactorsOf d) OtherType.generic = none →
      OtherModel.ofData d = .error .exitFatal) ∧
    (∀ d : List (String × Quantity),
      dictGet? (switchFactorsOf d) SwitchType.generic = none →
      SwitchModel.ofData d = .error .exitFatal) ∧
    (∀ d : List (String × Quantity),
      resistorFactorsOf d = [] →
      ResistorModel.ofData d = .error .exitFatal) := by
  refine ⟨?_, ?_, ?_, ?_, ?_, ?_⟩
  · intro d hg hag
    simp [ActiveModel.ofData, hg, hag]
  · intro d h
    rcases h with h | h
    · simp [ConnectorModel.ofData, h]
    · cases hp : dictGet? (connectorFactorsOf d) ConnectorType.peripheral with
      | none => simp [ConnectorModel.ofData, hp]
      | some f => simp [ConnectorModel.ofData, hp, h]
  · intro d hg hag
    simp [DiodeModel.ofData, hg, hag]
  · intro d hg
    simp [OtherModel.ofData, hg]
  · intro d hg
    simp [SwitchModel.ofData, hg]
  · intro d hg
    simp [ResistorModel.ofData, hg]

/-- Witness for C5 (amended): a concrete Active document holding only a BJT
factor derives no generic default, and construction is fatal. -/
theorem c5_amended_construction_fatal_witness :
    ActiveModel.ofData [("transistor_bjt", qTwo)] = .error .exitFatal :=
  c5_amended_construction_fatal.1 [("transistor_bjt", qTwo)] (by rfl) (by rfl)

/-- C6 counterexample: the claim says every model aborts a call whose
weight/area argument has an incompatible dimension; but
`CapacitorModel.get_carbon` performs no dimension check — with a
length-dimensioned weight of 5 m the energy-based branch silently computes
and returns a (wrongly-dimensioned) carbon value instead of aborting. -/
theorem c6_counterexample :
    (CapacitorModel.ofData [("generic", qTwo)] ciConst).get_carbon
        EnergyLocation.japan CapacitorType.generic ⟨5, lenDim⟩ 1 =
      ⟨⟨10, lenDim⟩, SourceType.passives⟩ := by
  have h : (CapacitorModel.ofData [("generic", qTwo)] ciConst).get_carbon
      EnergyLocation.japan CapacitorType.generic ⟨5, lenDim⟩ 1 =
      ⟨((qTwo.mul ⟨5, lenDim⟩).smulNat 1).mul (ciConst EnergyLocation.japan),
       SourceType.passives⟩ := rfl
  rw [h]
  norm_num [qTwo, ciConst, Quantity.mul, Quantity.smulNat, dimNone, lenDim,
    Carbon.mk.injEq, Quantity.mk.injEq, Dim.mk.injEq]

/-- C6 amended: every model with a dimensioned weight/area input except
Capacitor aborts the call (`AssertionError`) when that input has an
incompatible dimension: the five mass-based models and Inductor check the
mass dimension, PCB checks the area dimension; Capacitor alone performs no
dimension check. -/
theorem c6_amended_dimension_check :
    (∀ (m : ActiveModel) (w : Quantity) (t : ActiveType) (n : Nat),
      ¬ (w.check kgDim = true) →
      m.get_carbon w t n = .error .assertionError) ∧
    (∀ (m : ConnectorModel) (w : Quantity) (t : ConnectorType) (n : Nat),
      ¬ (w.check kgDim = true) →
      m.get_carbon w t n = .error .assertionError) ∧
    (∀ (m : DiodeModel) (w : Quantity) (t : DiodeType) (n : Nat),
      ¬ (w.check kgDim = true) →
      m.get_carbon w t n = .error .assertionError) ∧
    (∀ (m : OtherModel) (w : Quantity) (t : OtherType) (n : Nat),
      ¬ (w.check kgDim = true) →
      m.get_carbon w t n = .error .assertionError) ∧
    (∀ (m : SwitchModel) (w : Quantity) (t : SwitchType) (n : Nat),
      ¬ (w.check kgDim = true) →
      m.get_carbon w t n = .error .assertionError) ∧
    (∀ (m : PCBModel) (a : Quantity) (layers : Int) (th : Option Quantity),
      ¬ (a.check mm2Dim = true) →
      m.get_carbon a layers th = .error .assertionError) ∧
    (∀ (m : InductorModel) (n : Nat) (t : InductorType) (w : Quantity),
      ¬ (w.check kgDim = true) →
      m.get_carbon n t (some w) = .error .assertionError) := by
  refine ⟨?_, ?_, ?_, ?_, ?_, ?_, ?_⟩
  · intro m w t n hw
    simp [ActiveModel.get_carbon, hw]
  · intro m w t n hw
    simp [ConnectorModel.get_carbon, hw]
  · intro m w t n hw
    simp [DiodeModel.get_carbon, hw]
  · intro m w t n hw
    simp [OtherModel.get_carbon, hw]
  · intro m w t n hw
    simp [SwitchModel.get_carbon, hw]
  · intro m a layers th ha
    simp [PCBModel.get_carbon, ha]
  · intro m n t w hw
    simp [InductorModel.get_carbon, hw]

/-- Witness for C6 (amended): a concrete Active model call with a
length-dimensioned weight aborts with an `AssertionError`. -/
theorem c6_amended_dimension_check_witness :
    (ActiveModel.mk [(ActiveType.generic, qTwo)]).get_carbon ⟨5, lenDim⟩
        ActiveType.generic 1 = .error .assertionError :=
  c6_amended_dimension_check.1 ⟨[(ActiveType.generic, qTwo)]⟩ ⟨5, lenDim⟩
    ActiveType.generic 1 (by decide)

theorem resistorOfData_ne_nil {d : List (String × Quantity)}
    {m : ResistorModel} (h : ResistorModel.ofData d = .ok m) :
    m.emission_factors ≠ [] := by
  unfold ResistorModel.ofData at h
  by_cases hemp : (resistorFactorsOf d).isEmpty
  · simp [hemp] at h
  · simp only [hemp, Bool.false_eq_true, if_false] at h
    cases h805 : dictGet? (resistorFactorsOf d) ResistorType.pkg0805 with
    | some f =>
      cases hgen : dictGet? (resistorFactorsOf d) ResistorType.generic with
      | none =>
        simp only [h805, hgen] at h
        cases h
        exact dictInsert_ne_nil _ _ _
      | some g =>
        simp only [h805, hgen] at h
        cases h
        simpa [List.isEmpty_iff] using hemp
    | none =>
      simp only [h805] at h
      cases h
      simpa [List.isEmpty_iff] using hemp

theorem resistorResolveCall_ok (m : ResistorModel) (t : ResistorType)
    (hne : m.emission_factors ≠ []) : ∃ f, m.resolveCall t = .ok f := by
  cases he : dictGet? m.emission_factors t with
  | some f => exact ⟨f, by simp [ResistorModel.resolveCall, he]⟩
  | none =>
    cases htbl : m.emission_factors with
    | nil => exact absurd htbl hne
    | cons a l =>
      have hh : m.emission_factors.head? = some a := by rw [htbl]; rfl
      cases h805 : dictGet? m.emission_factors ResistorType.pkg0805 with
      | some f =>
        exact ⟨f, by simp [ResistorModel.resolveCall, he, hh, h805]⟩
      | none =>
        exact ⟨a.2, by simp [ResistorModel.resolveCall, he, hh, h805]⟩

theorem inductorResolvePackage_ok (m : InductorModel) (t : InductorType)
    (hne : m.package_emission_factors ≠ []) :
    ∃ f, m.resolvePackage t = .ok f := by
  cases he : dictGet? m.package_emission_factors t with
  | some f => exact ⟨f, by simp [InductorModel.resolvePackage, he]⟩
  | none =>
    cases htbl : m.package_emission_factors with
    | nil => exact absurd htbl hne
    | cons a l =>
      have hh : m.package_emission_factors.head? = some a := by rw [htbl]; rfl
      cases h805 : dictGet? m.package_emission_factors InductorType.pkg0805 with
      | some f =>
        exact ⟨f, by simp [InductorModel.resolvePackage, he, hh, h805]⟩
      | none =>
        exact ⟨a.2, by simp [InductorModel.resolvePackage, he, hh, h805]⟩

/-- C7 counterexample: the claim says call-time type resolution never raises
for any constructed model; but `InductorModel.__init__` never validates the
package table, and a model built from a weight-based-only document raises
`IndexError` (from the eagerly evaluated `list(values)[0]` fallback) on a
package-type call. -/
theorem c7_counterexample :
    (InductorModel.ofData [("weight_based", qTwo)]).get_carbon 1
        InductorType.pkg0201 none = .error .indexError := by
  rfl

/-- C7 amended: for every model except Inductor, call-time resolution of a
requested type never raises: unresolved types substitute the category's
default factor (generic/peripheral for the mass-based models; the 0805-based
fallback keeps Resistor total because its constructor rejects an empty
table).  For Inductor the same holds only when the package table is
non-empty, which its constructor does not guarantee. -/
theorem c7_amended_resolution_never_raises :
    (∀ (d : List (String × Quantity)) (m : ActiveModel) (w : Quantity)
        (t : ActiveType) (n : Nat),
      ActiveModel.ofData d = .ok m → w.check kgDim = true →
      dictGet? m.emission_factors t = none →
      ∃ g, dictGet? m.emission_factors ActiveType.generic = some g ∧
        m.get_carbon w t n = .ok ⟨(w.mul g).smulNat n, SourceType.active⟩) ∧
    (∀ (d : List (String × Quantity)) (m : ConnectorModel) (w : Quantity)
        (t : ConnectorType) (n : Nat),
      ConnectorModel.ofData d = .ok m → w.check kgDim = true →
      dictGet? m.emission_factors t = none →
      ∃ g, dictGet? m.emission_factors ConnectorType.peripheral = some g ∧
        m.get_carbon w t n = .ok ⟨(w.mul g).smulNat n, SourceType.connector⟩) ∧
    (∀ (d : List (String × Quantity)) (m : DiodeModel) (w : Quantity)
        (t : DiodeType) (n : Nat),
      DiodeModel.ofData d = .ok m → w.check kgDim = true →
      dictGet? m.emission_factors t = none →
      ∃ g, dictGet? m.emission_factors DiodeType.generic = some g ∧
        m.get_carbon w t n = .ok ⟨(w.mul g).smulNat n, SourceType.fabrication⟩) ∧
    (∀ (d : List (String × Quantity)) (m : OtherModel) (w : Quantity)
        (t : OtherType) (n : Nat),
      OtherModel.ofData d = .ok m → w.check kgDim = true →
      dictGet? m.emission_factors t = none →
      ∃ g, dictGet? m.emission_factors OtherType.generic = some g ∧
        m.get_carbon w t n = .ok ⟨(w.mul g).smulNat n, SourceType.other⟩) ∧
    (∀ (d : List (String × Quantity)) (m : SwitchModel) (w : Quantity)
        (t : SwitchType) (n : Nat),
      SwitchModel.ofData d = .ok m → w.check kgDim = true →
      ∃ g, dictGet? m.emission_factors SwitchType.generic = some g ∧
        m.get_carbon w t n = .ok ⟨(w.mul g).smulNat n, SourceType.switch⟩) ∧
    (∀ (d : List (String × Quantity)) (m : ResistorModel) (n : Nat)
        (t : ResistorType),
      ResistorModel.ofData d = .ok m →
      ∃ c, m.get_carbon n t = .ok c) ∧
    (∀ (m : InductorModel) (n : Nat) (t : InductorType),
      m.package_emission_factors ≠ [] →
      ∃ c, m.get_carbon n t none = .ok c) := by
  refine ⟨?_, ?_, ?_, ?_, ?_, ?_, ?_⟩
  · intro d m w t n hok hw he
    obtain ⟨g, hgg⟩ := Option.isSome_iff_exists.mp (activeOfData_generic hok)
    have hres : m.resolve t = some g := by simp [ActiveModel.resolve, he, hgg]
    exact ⟨g, hgg, by simp [ActiveModel.get_carbon, hw, hres]⟩
  · intro d m w t n hok hw he
    obtain ⟨g, hgg⟩ :=
      Option.isSome_iff_exists.mp (connectorOfData_peripheral hok)
    have hres : m.resolve t = some g := by
      simp [ConnectorModel.resolve, he, hgg]
    exact ⟨g, hgg, by simp [ConnectorModel.get_carbon, hw, hres]⟩
  · intro d m w t n hok hw he
    obtain ⟨g, hgg⟩ := Option.isSome_iff_exists.mp (diodeOfData_generic hok)
    have hres : m.resolve t = some g := by simp [DiodeModel.resolve, he, hgg]
    exact ⟨g, hgg, by simp [DiodeModel.get_carbon, hw, hres]⟩
  · intro d m w t n hok hw he
    obtain ⟨g, hgg⟩ := Option.isSome_iff_exists.mp (otherOfData_generic hok)
    have hres : m.resolve t = some g := by simp [OtherModel.resolve, he, hgg]
    exact ⟨g, hgg, by simp [OtherModel.get_carbon, hw, hres]⟩
  · intro d m w t n hok hw
    obtain ⟨g, hgg⟩ := Option.isSome_iff_exists.mp (switchOfData_generic hok)
    cases t
    have hres : m.resolve SwitchType.generic = some g := by
      simp [SwitchModel.resolve, hgg]
    exact ⟨g, hgg, by simp [SwitchModel.get_carbon, hw, hres]⟩
  · intro d m n t hok
    obtain ⟨f, hf⟩ :=
      resistorResolveCall_ok m t (resistorOfData_ne_nil hok)
    exact ⟨⟨f.smulNat n, SourceType.fabrication⟩,
      by simp [ResistorModel.get_carbon, hf]⟩
  · intro m n t hne
    by_cases ht : t ∈ inductorPackageTypes
    · obtain ⟨f, hf⟩ := inductorResolvePackage_ok m t hne
      exact ⟨⟨f.smulNat n, SourceType.inductor⟩,
        by simp [InductorModel.get_carbon, ht, hf]⟩
    · exact ⟨⟨⟨0, kgDim⟩, SourceType.inductor⟩,
        by simp [InductorModel.get_carbon, ht]⟩

/-- Witness for C7 (amended): a concrete Active model with only a generic
factor, queried at an unlisted type, substitutes the generic factor and
returns normally. -/
theorem c7_amended_resolution_never_raises_witness :
    ∃ g, dictGet? [(ActiveType.generic, qTwo)] ActiveType.generic = some g ∧
      (ActiveModel.mk [(ActiveType.generic, qTwo)]).get_carbon oneKg
          ActiveType.transistorMOSFET 4 =
        .ok ⟨(oneKg.mul g).smulNat 4, SourceType.active⟩ :=
  c7_amended_resolution_never_raises.1 [("generic", qTwo)]
    ⟨[(ActiveType.generic, qTwo)]⟩ oneKg ActiveType.transistorMOSFET 4
    (by rfl) (by rfl) (by rfl)

/-- C8: for a constructed Resistor model whose table holds an `0805` factor
`f`, `get_carbon(n)` with the type left at its Python default uses `f` (not
the `GENERIC` entry), and `get_carbon(n, t)` for any `t` absent from the
table falls back to `f`; both results equal `f * n`. -/
theorem c8_resistor_default_0805 :
    ∀ (d : List (String × Quantity)) (m : ResistorModel) (f : Quantity)
      (n : Nat),
      ResistorModel.ofData d = .ok m →
      dictGet? m.emission_factors ResistorType.pkg0805 = some f →
      (m.get_carbonDefault n = .ok ⟨f.smulNat n, SourceType.fabrication⟩ ∧
       ∀ t, dictGet? m.emission_factors t = none →
         m.get_carbon n t = .ok ⟨f.smulNat n, SourceType.fabrication⟩) := by
  intro d m f n hok h805
  have hne := dictGet?_ne_nil h805
  constructor
  · simp [ResistorModel.get_carbonDefault, ResistorModel.get_carbon,
      ResistorModel.resolveCall, h805]
  · intro t he
    cases htbl : m.emission_factors with
    | nil => exact absurd htbl hne
    | cons a l =>
      have hh : m.emission_factors.head? = some a := by rw [htbl]; rfl
      have hres : m.resolveCall t = .ok f := by
        simp [ResistorModel.resolveCall, he, hh, h805]
      simp [ResistorModel.get_carbon, hres]

/-- Witness for C8: a concrete Resistor model built from an 0805-only
document; the defaulted call and a call with the unlisted 0201 type both
return the 0805 factor times 3.  (Construction aliases `GENERIC` to the 0805
factor, and the defaulted call still reads 0805 directly.) -/
theorem c8_resistor_default_0805_witness :
    (ResistorModel.mk
        [(ResistorType.pkg0805, qTwo), (ResistorType.generic, qTwo)]).get_carbonDefault
        3 = .ok ⟨qTwo.smulNat 3, SourceType.fabrication⟩ ∧
    ∀ t, dictGet? [(ResistorType.pkg0805, qTwo), (ResistorType.generic, qTwo)]
        t = none →
      (ResistorModel.mk
          [(ResistorType.pkg0805, qTwo), (ResistorType.generic, qTwo)]).get_carbon
          3 t = .ok ⟨qTwo.smulNat 3, SourceType.fabrication⟩ :=
  c8_resistor_default_0805 [("0805", qTwo)]
    ⟨[(ResistorType.pkg0805, qTwo), (ResistorType.generic, qTwo)]⟩ qTwo 3
    (by rfl) (by rfl)

/-- C9: round-trip additivity for the five mass-based models and Resistor:
whenever a unit call (quantity 1) returns carbon `c1` and a single call with
quantity `n ≥ 1` returns carbon `cn` (same weight and type arguments), the
dimension-checked sum of `n` copies of `c1`'s quantity equals `cn`'s
quantity. -/
theorem c9_roundtrip_additivity :
    (∀ (m : ActiveModel) (w : Quantity) (t : ActiveType) (n : Nat)
        (c1 cn : Carbon),
      1 ≤ n → m.get_carbon w t 1 = .ok c1 → m.get_carbon w t n = .ok cn →
      sumQ (List.replicate n c1.q) = some cn.q) ∧
    (∀ (m : ConnectorModel) (w : Quantity) (t : ConnectorType) (n : Nat)
        (c1 cn : Carbon),
      1 ≤ n → m.get_carbon w t 1 = .ok c1 → m.get_carbon w t n = .ok cn →
      sumQ (List.replicate n c1.q) = some cn.q) ∧
    (∀ (m : DiodeModel) (w : Quantity) (t : DiodeType) (n : Nat)
        (c1 cn : Carbon),
      1 ≤ n → m.get_carbon w t 1 = .ok c1 → m.get_carbon w t n = .ok cn →
      sumQ (List.replicate n c1.q) = some cn.q) ∧
    (∀ (m : OtherModel) (w : Quantity) (t : OtherType) (n : Nat)
        (c1 cn : Carbon),
      1 ≤ n → m.get_carbon w t 1 = .ok c1 → m.get_carbon w t n = .ok cn →
      sumQ (List.replicate n c1.q) = some cn.q) ∧
    (∀ (m : SwitchModel) (w : Quantity) (t : SwitchType) (n : Nat)
        (c1 cn : Carbon),
      1 ≤ n → m.get_carbon w t 1 = .ok c1 → m.get_carbon w t n = .ok cn →
      sumQ (List.replicate n c1.q) = some cn.q) ∧
    (∀ (m : ResistorModel) (t : ResistorType) (n : Nat) (c1 cn : Carbon),
      1 ≤ n → m.get_carbon 1 t = .ok c1 → m.get_carbon n t = .ok cn →
      sumQ (List.replicate n c1.q) = some cn.q) := by
  refine ⟨?_, ?_, ?_, ?_, ?_, ?_⟩
  · intro m w t n c1 cn hn h1 hnn
    by_cases hw : w.check kgDim = true
    · cases hres : m.resolve t with
      | none => simp [ActiveModel.get_carbon, hw, hres] at h1
      | some f =>
        simp [ActiveModel.get_carbon, hw, hres] at h1 hnn
        subst h1
        subst hnn
        rw [sumQ_replicate _ hn]
        simp only [Quantity.smulNat, Option.some.injEq, Quantity.mk.injEq]
        refine ⟨?_, trivial⟩
        push_cast
        ring
    · simp [ActiveModel.get_carbon, hw] at h1
  · intro m w t n c1 cn hn h1 hnn
    by_cases hw : w.check kgDim = true
    · cases hres : m.resolve t with
      | none => simp [ConnectorModel.get_carbon, hw, hres] at h1
      | some f =>
        simp [ConnectorModel.get_carbon, hw, hres] at h1 hnn
        subst h1
        subst hnn
        rw [sumQ_replicate _ hn]
        simp only [Quantity.smulNat, Option.some.injEq, Quantity.mk.injEq]
        refine ⟨?_, trivial⟩
        push_cast
        ring
    · simp [ConnectorModel.get_carbon, hw] at h1
  · intro m w t n c1 cn hn h1 hnn
    by_cases hw : w.check kgDim = true
    · cases hres : m.resolve t with
      | none => simp [DiodeModel.get_carbon, hw, hres] at h1
      | some f =>
        simp [DiodeModel.get_carbon, hw, hres] at h1 hnn
        subst h1
        subst hnn
        rw [sumQ_replicate _ hn]
        simp only [Quantity.smulNat, Option.some.injEq, Quantity.mk.injEq]
        refine ⟨?_, trivial⟩
        push_cast
        ring
    · simp [DiodeModel.get_carbon, hw] at h1
  · intro m w t n c1 cn hn h1 hnn
    by_cases hw : w.check kgDim = true
    · cases hres : m.resolve t with
      | none => simp [OtherModel.get_carbon, hw, hres] at h1
      | some f =>
        simp [OtherModel.get_carbon, hw, hres] at h1 hnn
        subst h1
        subst hnn
        rw [sumQ_replicate _ hn]
        simp only [Quantity.smulNat, Option.some.injEq, Quantity.mk.injEq]
        refine ⟨?_, trivial⟩
        push_cast
        ring
    · simp [OtherModel.get_carbon, hw] at h1
  · intro m w t n c1 cn hn h1 hnn
    by_cases hw : w.check kgDim = true
    · cases hres : m.resolve t with
      | none => simp [SwitchModel.get_carbon, hw, hres] at h1
      | some f =>
        simp [SwitchModel.get_carbon, hw, hres] at h1 hnn
        subst h1
        subst hnn
        rw [sumQ_replicate _ hn]
        simp only [Quantity.smulNat, Option.some.injEq, Quantity.mk.injEq]
        refine ⟨?_, trivial⟩
        push_cast
        ring
    · simp [SwitchModel.get_carbon, hw] at h1
  · intro m t n c1 cn hn h1 hnn
    cases hres : m.resolveCall t with
    | error e => simp [ResistorModel.get_carbon, hres] at h1
    | ok f =>
      simp [ResistorModel.get_carbon, hres] at h1 hnn
      subst h1
      subst hnn
      rw [sumQ_replicate _ hn]
      simp only [Quantity.smulNat, Option.some.injEq, Quantity.mk.injEq]
      refine ⟨?_, trivial⟩
      push_cast
      ring

/-- Witness for C9: on a concrete Active model, two unit-quantity results
sum (under dimension-checked addition) to the quantity of one call with
quantity 2. -/
theorem c9_roundtrip_additivity_witness :
    sumQ (List.replicate 2
        (Carbon.mk ((oneKg.mul qTwo).smulNat 1) SourceType.active).q) =
      some (Carbon.mk ((oneKg.mul qTwo).smulNat 2) SourceType.active).q :=
  c9_roundtrip_additivity.1 ⟨[(ActiveType.generic, qTwo)]⟩ oneKg
    ActiveType.generic 2 ⟨(oneKg.mul qTwo).smulNat 1, SourceType.active⟩
    ⟨(oneKg.mul qTwo).smulNat 2, SourceType.active⟩ (by omega) (by rfl) (by rfl)

/-- C10: for Capacitor, whenever the requested type hits the package table,
and likewise whenever it misses both tables (rescue fallback), the result of
`get_carbon` is completely independent of the weight and
manufacturing-location arguments. -/
theorem c10_capacitor_noninterference :
    ∀ (m : CapacitorModel) (t : CapacitorType) (n : Nat)
      (ci ci' : EnergyLocation) (w w' : Quantity),
      ((dictGet? m.package_model t).isSome = true →
        m.get_carbon ci t w n = m.get_carbon ci' t w' n) ∧
      (dictGet? m.package_model t = none →
       dictGet? m.capacitor_model t = none →
        m.get_carbon ci t w n = m.get_carbon ci' t w' n) := by
  intro m t n ci ci' w w'
  constructor
  · intro hp
    obtain ⟨e, he⟩ := Option.isSome_iff_exists.mp hp
    simp [CapacitorModel.get_carbon, he]
  · intro hp he
    simp [CapacitorModel.get_carbon, hp, he]

/-- Witness for C10: on a concrete capacitor model with an 0402 package
entry, two calls differing in both manufacturing location and weight (one of
them wrongly dimensioned, even) return identical carbon values. -/
theorem c10_capacitor_noninterference_witness :
    (CapacitorModel.ofData [("0402", qTwo)] ciConst).get_carbon
        EnergyLocation.japan CapacitorType.pkg0402 oneKg 1 =
      (CapacitorModel.ofData [("0402", qTwo)] ciConst).get_carbon
        EnergyLocation.world CapacitorType.pkg0402 ⟨5, lenDim⟩ 1 :=
  (c10_capacitor_noninterference (CapacitorModel.ofData [("0402", qTwo)] ciConst)
      CapacitorType.pkg0402 1 EnergyLocation.japan EnergyLocation.world oneKg
      ⟨5, lenDim⟩).1 (by rfl)
